import Mathlib

/-!
Shallow embedding of the Video-Annotator backend (SAM2 inference service) in
Lean 4, covering the parts of the code that the verified properties are about:

* `backend/utils/multipart.py` — the multipart/mixed framer
  (`MultipartResponseBuilder`, `create_multipart_response`,
  `MultipartMaskResponse`, `build_multipart_response`);
* `backend/models/inference_sam.py` — the request/response payload models
  (`PointPayload`, `ObjectPayload`, `PredictPayload`, `ObjectResult`,
  `FrameResult`);
* `backend/services/inference_sam.py` — the inference orchestrator
  (`Inference.predict`, `Inference.start_session`), including the per-object
  confidence score.

Python byte strings are modelled as Lean `String`s (one character per byte;
all framing text is ASCII).  The external SAM2 Predictor is opaque: its
returned object-id lists and mask tensors are oracle parameters, and the
effect of its operations on the shared inference state is modelled from the
spec's interface description.  Mask tensors are modelled as flat lists of
rational raw values; float arithmetic in the score path is analysed over the
reals.  Lock acquisition/release and every Predictor invocation are recorded
in an explicit event trace.
-/

/-! ## Generic association-list helpers (Python `dict` accesses used below) -/

def assocFind {α β : Type} [DecidableEq α] : List (α × β) → α → Option β
  | [], _ => none
  | (k, v) :: rest, a => if k = a then some v else assocFind rest a

def assocSet {α β : Type} [DecidableEq α] : List (α × β) → α → β → List (α × β)
  | [], a, b => [(a, b)]
  | (k, v) :: rest, a, b => if k = a then (a, b) :: rest else (k, v) :: assocSet rest a b

/-- Index of the first occurrence of `a` in a list (Python `list.index`,
returning `none` instead of raising `ValueError`). -/
def listIdxOf {α : Type} [DecidableEq α] (a : α) : List α → Option Nat
  | [] => none
  | b :: rest => if b = a then some 0 else (listIdxOf a rest).map (· + 1)

/-! ## backend/utils/multipart.py -/

/-- JSON values that appear in the multipart metadata parts. -/
inductive JsonVal where
  | str (s : String)
  | int (n : Int)
  | rat (q : ℚ)
  deriving DecidableEq

/-- Body of a pending part: a JSON object (Python `dict`) or raw bytes. -/
inductive PartBody where
  | jsonObj (kv : List (String × JsonVal))
  | raw (b : String)
  deriving DecidableEq

/-- A pending part as stored in `MultipartMaskResponse.parts`:
`(content_type, data, extra_headers)`. -/
structure PendingPart where
  contentType : String
  body : PartBody
  extraHeaders : List (String × String)
  deriving DecidableEq

def renderJsonVal : JsonVal → String
  | .str s => "\x22" ++ s ++ "\x22"
  | .int n => toString n
  | .rat q => toString q

/-- Rendering of a JSON object to text (`json.dumps`). -/
def renderJson (kv : List (String × JsonVal)) : String :=
  "\x7b" ++ String.intercalate ", " (kv.map fun p => "\x22" ++ p.1 ++ "\x22: " ++ renderJsonVal p.2) ++ "\x7d"

def CRLF : String := "\r\n"

/-- The `MultipartResponseBuilder` class: its only state is the accumulated
byte string `message`. -/
structure MultipartResponseBuilder where
  message : String
  deriving DecidableEq

/-- The class constructor: `self.message = b"--" + boundary + b"\r\n"`. -/
def MultipartResponseBuilder.init (boundary : String) : MultipartResponseBuilder :=
  ⟨"--" ++ boundary ++ CRLF⟩

/-- The private `__append_header` method. -/
def MultipartResponseBuilder.appendHeader (b : MultipartResponseBuilder)
    (key value : String) : MultipartResponseBuilder :=
  ⟨b.message ++ key ++ ": " ++ value ++ CRLF⟩

/-- The private `__close_header` method. -/
def MultipartResponseBuilder.closeHeader (b : MultipartResponseBuilder) : MultipartResponseBuilder :=
  ⟨b.message ++ CRLF⟩

/-- The private `__append_body` method: emits a `Content-Length` header
computed from the exact byte length of the body, closes the header block and
appends the body. -/
def MultipartResponseBuilder.appendBody (b : MultipartResponseBuilder)
    (body : String) : MultipartResponseBuilder :=
  ⟨((b.appendHeader "Content-Length" (toString body.length)).closeHeader).message ++ body⟩

/-- The `build` classmethod: start a part, append all declared headers in
order, then append the body. -/
def MultipartResponseBuilder.build (boundary : String)
    (headers : List (String × String)) (body : String) : MultipartResponseBuilder :=
  (headers.foldl (fun acc kv => acc.appendHeader kv.1 kv.2)
    (MultipartResponseBuilder.init boundary)).appendBody body

/-- Data of a pending part after the `dict`-to-JSON conversion performed in
`create_multipart_response`. -/
def partData : PartBody → String
  | .jsonObj kv => renderJson kv
  | .raw b => b

/-- Content type after the `dict` case forces `application/json`. -/
def partContentType (declared : String) : PartBody → String
  | .jsonObj _ => "application/json"
  | .raw _ => declared

/-- The complete framed message of one part, as produced inside the loop of
`create_multipart_response`. -/
def buildPartMessage (boundary : String) (p : PendingPart) : String :=
  (MultipartResponseBuilder.build boundary
    (("Content-Type", partContentType p.contentType p.body) :: p.extraHeaders)
    (partData p.body)).message

/-- The closing boundary marker (`build_multipart_closing`). -/
def build_multipart_closing (boundary : String) : String :=
  CRLF ++ "--" ++ boundary ++ "--" ++ CRLF

/-- The part messages interleaved with the CRLF separators emitted between
consecutive parts (the loop body of `create_multipart_response`). -/
def interParts (boundary : String) : List PendingPart → List String
  | [] => []
  | [p] => [buildPartMessage boundary p]
  | p :: q :: rest => buildPartMessage boundary p :: CRLF :: interParts boundary (q :: rest)

/-- The generator `create_multipart_response`, as the list of byte chunks it
yields. -/
def create_multipart_response (parts : List PendingPart) (boundary : String) : List String :=
  interParts boundary parts ++ [build_multipart_closing boundary]

/-- The `(object_id, score, width, height, png_bytes)` tuples passed to
`build_multipart_response`. -/
structure MaskEntry where
  objectId : Int
  score : ℚ
  width : Int
  height : Int
  pngBytes : String
  deriving DecidableEq

/-- The metadata part appended by `MultipartMaskResponse.add_metadata`. -/
def add_metadata_part (sessionId : String) (frameIndex : Int)
    (objectCount : Option Int) : PendingPart :=
  ⟨"application/json",
   .jsonObj ([("sessionId", .str sessionId), ("frameIndex", .int frameIndex)] ++
     (match objectCount with
      | none => []
      | some n => [("objectCount", .int n)])),
   []⟩

/-- The JSON object-metadata part appended first by
`MultipartMaskResponse.add_mask`. -/
def add_mask_json_part (m : MaskEntry) : PendingPart :=
  ⟨"application/json",
   .jsonObj [("objectId", .int m.objectId), ("score", .rat m.score),
             ("width", .int m.width), ("height", .int m.height)],
   []⟩

/-- The binary PNG part appended second by `MultipartMaskResponse.add_mask`. -/
def add_mask_png_part (m : MaskEntry) : PendingPart :=
  ⟨"image/png", .raw m.pngBytes, [("X-Object-Id", toString m.objectId)]⟩

/-- Both parts appended by one `add_mask` call, in order. -/
def add_mask_parts (m : MaskEntry) : List PendingPart :=
  [add_mask_json_part m, add_mask_png_part m]

/-- The ordered part list accumulated by `build_multipart_response`:
one `add_metadata` call with `object_count = len(masks)`, then one `add_mask`
call per mask tuple. -/
def build_multipart_response_parts (sessionId : String) (frameIndex : Int)
    (masks : List MaskEntry) : List PendingPart :=
  add_metadata_part sessionId frameIndex (some masks.length) ::
    masks.flatMap add_mask_parts

/-- Whether a pending part is a JSON part (as opposed to a binary one). -/
def PendingPart.isJson (p : PendingPart) : Bool :=
  match p.body with
  | .jsonObj _ => true
  | .raw _ => false

/-- The keys of a JSON part's object, in order (none for a binary part). -/
def PendingPart.jsonKeys (p : PendingPart) : Option (List String) :=
  match p.body with
  | .jsonObj kv => some (kv.map (·.1))
  | .raw _ => none

/-! ## backend/models/inference_sam.py — payload models -/

/-- Object ids flow through `predict` exactly as given in the payload, where
`objectId` is `Optional[int]`. -/
abbrev ObjId := Option Int

/-- The `PointPayload` pydantic model (normalized coordinates). -/
structure PointPayload where
  id : String
  x : ℚ
  y : ℚ
  label : Int
  deriving DecidableEq

/-- The `PointPayload.to_pixel` method:
`(self.x * width, self.y * height, int(self.label))`. -/
def PointPayload.to_pixel (p : PointPayload) (imageSize : Nat × Nat) : ℚ × ℚ × Int :=
  (p.x * (imageSize.1 : ℚ), p.y * (imageSize.2 : ℚ), p.label)

/-- The `ObjectMeta` pydantic model (pure passthrough data). -/
structure ObjectMeta where
  lastTimestamp : Option ℚ
  lastSource : Option String
  frameIndex : Option Int
  objectId : Option Int
  deriving DecidableEq

/-- The `ObjectPayload` pydantic model. -/
structure ObjectPayload where
  objectId : ObjId
  points : List PointPayload
  meta : Option ObjectMeta
  deriving DecidableEq

/-- The `FrameMeta` pydantic model. -/
structure FrameMeta where
  pointCount : Int
  objectCount : Int
  deriving DecidableEq

/-- The `PredictPayload` pydantic model. -/
structure PredictPayload where
  sessionId : Option String
  frameIndex : Option Int
  videoPath : Option String
  image : Option String
  objects : List ObjectPayload
  meta : Option FrameMeta
  deriving DecidableEq

/-- The `PredictPayload.iter_objects` method. -/
def PredictPayload.iter_objects (p : PredictPayload) : List ObjectPayload :=
  p.objects

/-- The `EncodedMask` pydantic model; `data` is a byte/base64 string. -/
structure EncodedMask where
  width : Nat
  height : Nat
  format : String
  data : String
  deriving DecidableEq

/-- The `ObjectResult` pydantic model.  The `objectId` field is populated in
`predict` with `obj.objectId` taken unchanged from the payload. -/
structure ObjectResult where
  objectId : ObjId
  score : ℚ
  mask : EncodedMask
  meta : Option ObjectMeta
  deriving DecidableEq

/-- The `FrameResult` pydantic model. -/
structure FrameResult where
  sessionId : String
  frameIndex : Int
  results : List ObjectResult
  meta : Option FrameMeta
  deriving DecidableEq

/-! ## backend/services/inference_sam.py — score derivation (real-valued) -/

/-- The logistic transform `1.0 / (1.0 + np.exp(-raw_score))` applied to the
mean of the raw mask values, analysed over the reals. -/
noncomputable def logistic (x : ℝ) : ℝ := 1 / (1 + Real.exp (-x))

/-- The mean `np.mean(mask)` of the flattened raw mask values. -/
noncomputable def maskMean (mask : List ℝ) : ℝ := mask.sum / (mask.length : ℝ)

/-- The per-object confidence derivation of `Inference.predict`:
`score = sigmoid(mean(mask))`, replaced by `0.0` when `np.isfinite` rejects
the transform's value.  The finiteness check of the float implementation is
an abstract boolean predicate. -/
noncomputable def predictScore (isFiniteCheck : ℝ → Bool) (mask : List ℝ) : ℝ :=
  let score := logistic (maskMean mask)
  if isFiniteCheck score then score else 0

/-! ## backend/services/inference_sam.py — orchestrator state and events -/

/-- The `fastapi.HTTPException` data raised by the service. -/
structure HTTPException where
  status : Nat
  detail : String
  deriving DecidableEq

/-- The fields of the predictor `inference_state` dict that the orchestrator
reads or writes.  Image tensors are abstracted to their pixel dimensions
`(width, height)`; the per-object structures owned by the Predictor are
tracked at the granularity the spec describes (point/mask history keyed by
object id and frame index, object registries as id lists). -/
structure InferenceState where
  images : Option (Nat × Nat)
  numFrames : Nat
  videoHeight : Option Nat
  videoWidth : Option Nat
  pointInputsPerObj : List ((ObjId × Int) × List (ℚ × ℚ × Int))
  maskInputsPerObj : List (ObjId × Int)
  cachedFeatures : List Int
  objIds : List ObjId
  outputDictPerObj : List ObjId
  tempOutputDictPerObj : List ObjId
  framesTrackedPerObj : List ObjId
  deriving DecidableEq

/-- The empty inference state built by `start_session` when `path is None`. -/
def emptyInferenceState : InferenceState :=
  { images := none, numFrames := 0, videoHeight := none, videoWidth := none,
    pointInputsPerObj := [], maskInputsPerObj := [], cachedFeatures := [],
    objIds := [], outputDictPerObj := [], tempOutputDictPerObj := [],
    framesTrackedPerObj := [] }

/-- One entry of `Inference.session_states`:
`{"canceled": ..., "state": ...}` plus the `"last_frame_idx"` key that
stateless mode stores on the session dict (absent until first written; the
code reads it with `session.get("last_frame_idx", -1)`). -/
structure SessionEntry where
  canceled : Bool
  state : InferenceState
  lastFrameIdx : Option Int
  deriving DecidableEq

/-- The `Inference.session_states` mapping. -/
abbrev SessionStore := List (String × SessionEntry)

def lookupSession (store : SessionStore) (sid : String) : Option SessionEntry :=
  assocFind store sid

def insertSession (store : SessionStore) (sid : String) (s : SessionEntry) : SessionStore :=
  assocSet store sid s

/-- The session dict created by `start_session(path=None, ...)`. -/
def startSessionEmptyEntry : SessionEntry :=
  { canceled := false, state := emptyInferenceState, lastFrameIdx := none }

/-- Predictor operations invoked by the orchestrator, with the arguments it
passes. -/
inductive PredictorEv where
  | initState
  | resetState
  | addNewPointsOrBox (objId : ObjId) (frameIdx : Int)
      (points : List (ℚ × ℚ)) (labels : List Int)
      (clearOldPoints : Bool) (normalizeCoords : Bool)
  deriving DecidableEq

/-- Events recorded while serving a request: acquisitions and releases of
`Inference.inference_lock`, and Predictor invocations. -/
inductive Ev where
  | lockAcquire
  | lockRelease
  | predictor (e : PredictorEv)
  deriving DecidableEq

def Ev.isPredictorEv : Ev → Bool
  | .predictor _ => true
  | _ => false

/-- Net lock depth after a sequence of events. -/
def lockDepth (tr : List Ev) : Int :=
  tr.foldl
    (fun d e =>
      match e with
      | Ev.lockAcquire => d + 1
      | Ev.lockRelease => d - 1
      | Ev.predictor _ => d)
    0

/-- Whether the lock is held when the event at index `i` executes. -/
def lockHeldBefore (tr : List Ev) (i : Nat) : Bool :=
  0 < lockDepth (tr.take i)

/-- Whether every Predictor invocation in the trace executes while the lock
is held. -/
def predictorOpsUnderLock (tr : List Ev) : Bool :=
  (List.range tr.length).all fun i =>
    !(Ev.isPredictorEv (tr.getD i Ev.lockAcquire)) || lockHeldBefore tr i

/-! ## backend/services/inference_sam.py — the predict orchestration -/

/-- Oracle parameters for the external collaborators used by
`Inference.predict`: path resolution (`resolve_video_path`), frame extraction
(`get_video_frame`, abstracted to the extracted frame's pixel dimensions
`(width, height)`), the opaque Predictor's return values, the mask codec
primitives and the generated UUID. -/
structure PredictEnv where
  resolvePath : String → Except HTTPException String
  frameSize : String → Int → Option (Nat × Nat)
  retObjectIds : ObjId → List ObjId
  maskAt : ObjId → Nat → List ℚ
  pngOf : List Nat → String
  b64 : String → String
  scoreOf : List ℚ → ℚ
  freshId : String

/-- Python truthiness of the optional string fields checked with
`if not payload.videoPath` / `if not session_id`: falsy when absent or
empty. -/
def pyFalsy : Option String → Bool
  | none => true
  | some s => s == ""

/-- Modelled from the spec: the Predictor's `reset_state` operation (SAM2
library code, not under src/) — "command the Predictor to reset all tracking
state for this session": all cached per-object point/mask history structures
and object registries are cleared. -/
def resetStateModel (s : InferenceState) : InferenceState :=
  { s with pointInputsPerObj := [], maskInputsPerObj := [], objIds := [],
           outputDictPerObj := [], tempOutputDictPerObj := [],
           framesTrackedPerObj := [] }

/-- Modelled from the spec: the state effect of the Predictor's
`add_new_points_or_box` operation (SAM2 library code, not under src/) —
prompt injection for one object at one frame with `clear_old_points=True`,
i.e. "always clear any stale point/mask state for that object id at that
frame before injecting", so the submitted points replace that object's entry
at that frame and the object id is registered. -/
def addNewPointsModel (s : InferenceState) (oid : ObjId) (frameIdx : Int)
    (pts : List (ℚ × ℚ × Int)) : InferenceState :=
  { s with
    pointInputsPerObj := assocSet s.pointInputsPerObj (oid, frameIdx) pts,
    objIds := if s.objIds.contains oid then s.objIds else s.objIds ++ [oid] }

/-- The stateless-mode block of `Inference.predict` (lines 275–322): when the
requested frame index differs from the session's last-seen one, reset the
Predictor state, clear the feature cache, record the new index and install
the newly extracted frame as the sole frame; afterwards, install the frame
anyway if no image is present yet (very first call).  Device/storage fields
and the `setdefault` calls are no-ops in this typed model.  Returns the
updated session and the Predictor invocations performed. -/
def statelessPrepare (session : SessionEntry) (frameIndex : Int)
    (videoW videoH : Nat) : SessionEntry × List Ev :=
  let lastFrameIdx := session.lastFrameIdx.getD (-1)
  let step1 : SessionEntry × List Ev :=
    if lastFrameIdx ≠ frameIndex then
      let st := resetStateModel session.state
      let st := { st with cachedFeatures := [],
                          images := some (videoW, videoH), numFrames := 1,
                          videoHeight := some videoH, videoWidth := some videoW }
      ({ session with state := st, lastFrameIdx := some frameIndex },
       [Ev.predictor .resetState])
    else (session, [])
  let session1 := step1.1
  if session1.state.images = none then
    ({ session1 with
       state := { session1.state with
                  images := some (videoW, videoH), numFrames := 1,
                  videoHeight := some videoH, videoWidth := some videoW },
       lastFrameIdx := some frameIndex },
     step1.2)
  else (session1, step1.2)

/-- Binarization `(mask > self.score_thresh).astype(np.uint8) * 255` with the
fixed threshold `score_thresh = 0.0`. -/
def binarizeMask (mask : List ℚ) : List Nat :=
  mask.map fun v => if 0 < v then 255 else 0

/-- The per-object loop of `Inference.predict` (lines 335–399): for every
payload object with at least one point, build the coordinate/label arrays,
invoke `add_new_points_or_box` (recorded as an event), locate the object's
mask among the returned object ids (skipping the object silently when
absent), binarize, score, encode, and append an `ObjectResult`.  Returns the
final session, the Predictor invocations and the accumulated results. -/
def processObjects (env : PredictEnv) (targetFrameIdx : Int)
    (videoW videoH : Nat) (returnBinary : Bool) :
    SessionEntry → List ObjectPayload → SessionEntry × List Ev × List ObjectResult
  | session, [] => (session, [], [])
  | session, obj :: rest =>
    if obj.points.isEmpty then
      processObjects env targetFrameIdx videoW videoH returnBinary session rest
    else
      let coords := obj.points.map fun p => (p.x, p.y)
      let labels := obj.points.map fun p => p.label
      let session1 : SessionEntry :=
        { session with
          state := addNewPointsModel session.state obj.objectId targetFrameIdx
            (obj.points.map fun p => (p.x, p.y, p.label)) }
      let ev : Ev := .predictor
        (.addNewPointsOrBox obj.objectId targetFrameIdx coords labels true false)
      let recOut := processObjects env targetFrameIdx videoW videoH returnBinary session1 rest
      match listIdxOf obj.objectId (env.retObjectIds obj.objectId) with
      | none => (recOut.1, ev :: recOut.2.1, recOut.2.2)
      | some idx =>
        let mask := env.maskAt obj.objectId idx
        let png := env.pngOf (binarizeMask mask)
        let res : ObjectResult :=
          { objectId := obj.objectId,
            score := env.scoreOf mask,
            mask := { width := videoW, height := videoH, format := "png",
                      data := if returnBinary then png else env.b64 png },
            meta := obj.meta }
        (recOut.1, ev :: recOut.2.1, res :: recOut.2.2)

/-- The session-id resolution of `Inference.predict` (lines 254–259): a
missing or empty `sessionId` is replaced by a freshly generated UUID. -/
def resolveSessionId (env : PredictEnv) (payload : PredictPayload) : String :=
  match payload.sessionId with
  | none => env.freshId
  | some s => if s == "" then env.freshId else s

/-- The body of `Inference.predict` after validation and frame extraction
(lines 254–406): session auto-creation (`start_session` runs under the lock,
recorded as an acquire/release pair), mode resolution, the pre-lock stateless
block, then the locked per-object loop, and finally the `FrameResult` plus
the updated session store and the full event trace. -/
def predict_core (env : PredictEnv) (store : SessionStore)
    (payload : PredictPayload) (returnBinary : Bool) (frameIndex : Int)
    (videoW videoH : Nat) :
    Except HTTPException FrameResult × SessionStore × List Ev :=
  let sid := resolveSessionId env payload
  let autoCreate := (lookupSession store sid).isNone
  let store1 := if autoCreate then insertSession store sid startSessionEmptyEntry else store
  let ev1 : List Ev := if autoCreate then [Ev.lockAcquire, Ev.lockRelease] else []
  match lookupSession store1 sid with
  | none => (.error ⟨500, "Cannot find session"⟩, store1, ev1)
  | some session =>
    let isStateless := session.state.numFrames ≤ 1
    let prep := if isStateless then statelessPrepare session frameIndex videoW videoH
                else (session, [])
    let targetFrameIdx := if isStateless then (0 : Int) else frameIndex
    let outv := processObjects env targetFrameIdx videoW videoH returnBinary prep.1 payload.iter_objects
    (.ok { sessionId := sid, frameIndex := frameIndex, results := outv.2.2,
           meta := payload.meta },
     insertSession store1 sid outv.1,
     ev1 ++ prep.2 ++ [Ev.lockAcquire] ++ outv.2.1 ++ [Ev.lockRelease])

/-- The `Inference.predict` method (lines 221–406): request validation
(missing `videoPath`/`frameIndex` → 400 before anything else), path
resolution, frame extraction (failure → 400), then `predict_core`. -/
def Inference.predict (env : PredictEnv) (store : SessionStore)
    (payload : PredictPayload) (returnBinary : Bool) :
    Except HTTPException FrameResult × SessionStore × List Ev :=
  if pyFalsy payload.videoPath then
    (.error ⟨400, "videoPath is required"⟩, store, [])
  else
    match payload.frameIndex with
    | none => (.error ⟨400, "frameIndex is required"⟩, store, [])
    | some frameIndex =>
      match env.resolvePath (payload.videoPath.getD "") with
      | .error e => (.error e, store, [])
      | .ok resolvedPath =>
        match env.frameSize resolvedPath frameIndex with
        | none => (.error ⟨400, "Failed to extract frame from video"⟩, store, [])
        | some wh => predict_core env store payload returnBinary frameIndex wh.1 wh.2

/-- The `ObjectResult` produced by the loop body of `Inference.predict` for a
payload object whose id is found among the Predictor's returned object ids
(the located index is `listIdxOf`'s value; `getD 0` is irrelevant there). -/
def mkObjectResult (env : PredictEnv) (videoW videoH : Nat)
    (returnBinary : Bool) (o : ObjectPayload) : ObjectResult :=
  let idx := (listIdxOf o.objectId (env.retObjectIds o.objectId)).getD 0
  let mask := env.maskAt o.objectId idx
  let png := env.pngOf (binarizeMask mask)
  { objectId := o.objectId,
    score := env.scoreOf mask,
    mask := { width := videoW, height := videoH, format := "png",
              data := if returnBinary then png else env.b64 png },
    meta := o.meta }

/-! ## Declarative view of a framed part (used to state the header property) -/

/-- One rendered header line. -/
def renderHeader (kv : String × String) : String :=
  kv.1 ++ ": " ++ kv.2 ++ CRLF

/-- Rendered header block. -/
def renderHeaders : List (String × String) → String
  | [] => ""
  | kv :: rest => renderHeader kv ++ renderHeaders rest

/-- Declarative shape of a framed part: boundary line, header block, blank
line, body. -/
def renderPartMessage (boundary : String) (headers : List (String × String))
    (body : String) : String :=
  "--" ++ boundary ++ CRLF ++ renderHeaders headers ++ CRLF ++ body

/-! ## Concrete inputs used by witnesses and counterexamples -/

def envW : PredictEnv :=
  { resolvePath := fun s => .ok s,
    frameSize := fun _ _ => some (100, 50),
    retObjectIds := fun oid => [oid],
    maskAt := fun _ _ => [1, -1],
    pngOf := fun _ => "PNGBYTES",
    b64 := fun s => s ++ "base64",
    scoreOf := fun _ => 1,
    freshId := "fresh-uuid" }

def pointW : PointPayload := { id := "p1", x := 1, y := 1, label := 1 }

def objW : ObjectPayload := { objectId := some 1, points := [pointW], meta := none }

def objW2 : ObjectPayload :=
  { objectId := some 2, points := [{ id := "p2", x := 0, y := 1, label := 0 }],
    meta := none }

def payloadW : PredictPayload :=
  { sessionId := some "s1", frameIndex := some 5, videoPath := some "v.mp4",
    image := none, objects := [objW], meta := none }

def payloadW2 : PredictPayload :=
  { sessionId := some "s1", frameIndex := some 5, videoPath := some "v.mp4",
    image := none, objects := [objW2], meta := none }

def payloadNoFrame : PredictPayload :=
  { sessionId := some "s1", frameIndex := none, videoPath := some "v.mp4",
    image := none, objects := [objW], meta := none }

def payloadNoSession : PredictPayload :=
  { sessionId := none, frameIndex := some 5, videoPath := some "v.mp4",
    image := none, objects := [objW], meta := none }

def storeS1 : SessionStore := [("s1", startSessionEmptyEntry)]

def maskEntryW : MaskEntry :=
  { objectId := 7, score := 1, width := 100, height := 50, pngBytes := "PNGBYTES" }

/-! ## Theorems -/

theorem string_append_assoc (a b c : String) : a ++ b ++ c = a ++ (b ++ c) := by
  apply String.ext
  simp

theorem add_mask_parts_flatMap_length (masks : List MaskEntry) :
    (masks.flatMap add_mask_parts).length = 2 * masks.length := by
  induction masks with
  | nil => simp
  | cons m rest ih =>
    simp only [List.flatMap_cons, List.length_append, ih, add_mask_parts,
      List.length_cons, List.length_nil, List.length_cons]
    omega

theorem add_mask_parts_flatMap_get (masks : List MaskEntry) (i : Nat)
    (h : i < masks.length) :
    (masks.flatMap add_mask_parts)[2 * i]? = some (add_mask_json_part (masks.get ⟨i, h⟩)) ∧
    (masks.flatMap add_mask_parts)[2 * i + 1]? = some (add_mask_png_part (masks.get ⟨i, h⟩)) := by
  induction masks generalizing i with
  | nil => simp at h
  | cons m rest ih =>
    cases i with
    | zero => simp [add_mask_parts]
    | succ j =>
      have hj : j < rest.length := by simpa using h
      have hrec := ih j hj
      have e1 : 2 * (j + 1) = 2 * j + 1 + 1 := by omega
      have e2 : 2 * (j + 1) + 1 = (2 * j + 1 + 1) + 1 := by omega
      constructor
      · rw [e1]
        simpa [add_mask_parts] using hrec.1
      · rw [e2]
        simpa [add_mask_parts] using hrec.2

/-- C5: for every multipart response built from n Object Results, the part
list contains exactly 1 + 2·n parts before the closing boundary marker; the
first part is the JSON metadata part carrying sessionId, frameIndex and
objectCount, and thereafter JSON object-metadata parts and binary PNG parts
strictly alternate: the JSON part for mask i sits at index 1 + 2·i,
immediately followed by its binary part at index 2 + 2·i. -/
theorem C5_multipart_part_structure (sessionId : String) (frameIndex : Int)
    (masks : List MaskEntry) :
    (build_multipart_response_parts sessionId frameIndex masks).length = 1 + 2 * masks.length ∧
    (build_multipart_response_parts sessionId frameIndex masks)[0]? =
      some (add_metadata_part sessionId frameIndex (some masks.length)) ∧
    (add_metadata_part sessionId frameIndex (some masks.length)).jsonKeys =
      some ["sessionId", "frameIndex", "objectCount"] ∧
    ∀ i, ∀ h : i < masks.length,
      (build_multipart_response_parts sessionId frameIndex masks)[1 + 2 * i]? =
        some (add_mask_json_part (masks.get ⟨i, h⟩)) ∧
      (build_multipart_response_parts sessionId frameIndex masks)[2 + 2 * i]? =
        some (add_mask_png_part (masks.get ⟨i, h⟩)) ∧
      (add_mask_json_part (masks.get ⟨i, h⟩)).isJson = true ∧
      (add_mask_png_part (masks.get ⟨i, h⟩)).isJson = false := by
  refine ⟨?_, ?_, ?_, ?_⟩
  · simp only [build_multipart_response_parts, List.length_cons,
      add_mask_parts_flatMap_length]
    omega
  · simp [build_multipart_response_parts]
  · rfl
  · intro i h
    have hg := add_mask_parts_flatMap_get masks i h
    refine ⟨?_, ?_, rfl, rfl⟩
    · have e : 1 + 2 * i = 2 * i + 1 := by omega
      rw [e]
      simpa [build_multipart_response_parts] using hg.1
    · have e : 2 + 2 * i = (2 * i + 1) + 1 := by omega
      rw [e]
      simpa [build_multipart_response_parts] using hg.2

theorem C5_multipart_part_structure_witness :
    (0 < [maskEntryW].length) ∧
    (build_multipart_response_parts "s" 3 [maskEntryW]).length = 1 + 2 * [maskEntryW].length ∧
    (build_multipart_response_parts "s" 3 [maskEntryW])[1 + 2 * 0]? =
      some (add_mask_json_part maskEntryW) ∧
    (build_multipart_response_parts "s" 3 [maskEntryW])[2 + 2 * 0]? =
      some (add_mask_png_part maskEntryW) := by
  refine ⟨by decide, (C5_multipart_part_structure "s" 3 [maskEntryW]).1, ?_, ?_⟩
  · simpa using ((C5_multipart_part_structure "s" 3 [maskEntryW]).2.2.2 0 (by decide)).1
  · simpa using ((C5_multipart_part_structure "s" 3 [maskEntryW]).2.2.2 0 (by decide)).2.1

theorem renderHeaders_append (xs ys : List (String × String)) :
    renderHeaders (xs ++ ys) = renderHeaders xs ++ renderHeaders ys := by
  induction xs with
  | nil =>
    apply String.ext
    simp [renderHeaders]
  | cons kv rest ih =>
    show renderHeader kv ++ renderHeaders (rest ++ ys) =
      renderHeader kv ++ renderHeaders rest ++ renderHeaders ys
    rw [ih, string_append_assoc]

theorem buildFold_message (hs : List (String × String)) (b : MultipartResponseBuilder) :
    (hs.foldl (fun acc kv => acc.appendHeader kv.1 kv.2) b).message =
      b.message ++ renderHeaders hs := by
  induction hs generalizing b with
  | nil =>
    apply String.ext
    simp [renderHeaders]
  | cons kv rest ih =>
    rw [List.foldl_cons, ih]
    simp only [MultipartResponseBuilder.appendHeader, renderHeaders, renderHeader]
    apply String.ext
    simp

theorem appendBody_message (b : MultipartResponseBuilder) (body : String) :
    (b.appendBody body).message =
      b.message ++ renderHeader ("Content-Length", toString body.length) ++ CRLF ++ body := by
  simp only [MultipartResponseBuilder.appendBody, MultipartResponseBuilder.appendHeader,
    MultipartResponseBuilder.closeHeader, renderHeader]
  apply String.ext
  simp

theorem build_message_shape (boundary : String) (headers : List (String × String))
    (body : String) :
    (MultipartResponseBuilder.build boundary headers body).message =
      renderPartMessage boundary
        (headers ++ [("Content-Length", toString body.length)]) body := by
  unfold MultipartResponseBuilder.build
  rw [appendBody_message, buildFold_message, renderPartMessage, renderHeaders_append]
  simp only [MultipartResponseBuilder.init, renderHeaders, renderHeader]
  apply String.ext
  simp

/-- C7: the multipart framer is pure and deterministic — two runs over the
same ordered part list and boundary produce byte-identical concatenated
output — and every framed part's message consists of the boundary line, the
declared headers followed by a final Content-Length header whose value is the
exact byte length of the part's body, a blank line, and the body. -/
theorem C7_framer_deterministic_content_length (parts : List PendingPart)
    (boundary : String) :
    String.join (create_multipart_response parts boundary) =
      String.join (create_multipart_response parts boundary) ∧
    ∀ p : PendingPart,
      buildPartMessage boundary p =
        renderPartMessage boundary
          ((("Content-Type", partContentType p.contentType p.body) :: p.extraHeaders) ++
            [("Content-Length", toString (partData p.body).length)])
          (partData p.body) := by
  refine ⟨rfl, ?_⟩
  intro p
  simp only [buildPartMessage, build_message_shape]

/-- C4: for every returned Object Result the confidence score lies in the
closed interval [0, 1]: it is the logistic transform of the mean of the raw
mask values, replaced by exactly 0 when the finiteness check rejects it, and
both branches lie in [0, 1]. -/
theorem C4_score_in_unit_interval (isFiniteCheck : ℝ → Bool) (mask : List ℝ) :
    0 ≤ predictScore isFiniteCheck mask ∧ predictScore isFiniteCheck mask ≤ 1 := by
  have hexp : (0 : ℝ) < Real.exp (-(maskMean mask)) := Real.exp_pos _
  have hden : (0 : ℝ) < 1 + Real.exp (-(maskMean mask)) := by linarith
  have h0 : (0 : ℝ) ≤ logistic (maskMean mask) := by
    unfold logistic
    positivity
  have h1 : logistic (maskMean mask) ≤ 1 := by
    unfold logistic
    rw [div_le_one hden]
    linarith
  unfold predictScore
  dsimp only
  split
  · exact ⟨h0, h1⟩
  · norm_num

theorem assocFind_assocSet_self {α β : Type} [DecidableEq α]
    (l : List (α × β)) (a : α) (b : β) :
    assocFind (assocSet l a b) a = some b := by
  induction l with
  | nil => simp [assocSet, assocFind]
  | cons kv rest ih =>
    obtain ⟨k, v⟩ := kv
    by_cases h : k = a
    · simp [assocSet, assocFind, h]
    · simp [assocSet, assocFind, h, ih]

theorem assocFind_assocSet_ne {α β : Type} [DecidableEq α]
    (l : List (α × β)) (a' a : α) (b : β) (h : a' ≠ a) :
    assocFind (assocSet l a' b) a = assocFind l a := by
  induction l with
  | nil => simp [assocSet, assocFind, h]
  | cons kv rest ih =>
    obtain ⟨k, v⟩ := kv
    by_cases hk : k = a'
    · subst hk
      simp [assocSet, assocFind, h]
    · simp [assocSet, assocFind, hk, ih]

theorem assocSet_keys_mem {α β : Type} [DecidableEq α]
    (l : List (α × β)) (a : α) (b : β) (k : α)
    (hk : k ∈ (assocSet l a b).map (·.1)) : k = a ∨ k ∈ l.map (·.1) := by
  induction l with
  | nil => simpa [assocSet] using hk
  | cons kv rest ih =>
    obtain ⟨k1, v⟩ := kv
    by_cases h : k1 = a
    · subst h
      simpa [assocSet] using hk
    · simp only [assocSet, if_neg h, List.map_cons, List.mem_cons] at hk
      rcases hk with h1 | h1
      · right
        simp [h1]
      · rcases ih h1 with h2 | h2
        · exact .inl h2
        · right
          simp [h2]

theorem processObjects_session_fields (env : PredictEnv) (t : Int) (w h : Nat)
    (rb : Bool) (s : SessionEntry) (objs : List ObjectPayload) :
    (processObjects env t w h rb s objs).1.lastFrameIdx = s.lastFrameIdx ∧
    (processObjects env t w h rb s objs).1.state.numFrames = s.state.numFrames ∧
    (processObjects env t w h rb s objs).1.state.images = s.state.images := by
  induction objs generalizing s with
  | nil => simp [processObjects]
  | cons obj rest ih =>
    by_cases hp : obj.points.isEmpty
    · simpa [processObjects, hp] using ih s
    · have hrec := ih { s with
        state := addNewPointsModel s.state obj.objectId t
          (obj.points.map fun p => (p.x, p.y, p.label)) }
      cases hm : listIdxOf obj.objectId (env.retObjectIds obj.objectId) with
      | none => simpa [processObjects, hp, hm, addNewPointsModel] using hrec
      | some idx => simpa [processObjects, hp, hm, addNewPointsModel] using hrec

theorem processObjects_events (env : PredictEnv) (t : Int) (w h : Nat)
    (rb : Bool) (s : SessionEntry) (objs : List ObjectPayload) :
    (processObjects env t w h rb s objs).2.1 =
      (objs.filter fun o => !o.points.isEmpty).map
        (fun o => Ev.predictor (.addNewPointsOrBox o.objectId t
          (o.points.map fun p => (p.x, p.y)) (o.points.map fun p => p.label)
          true false)) := by
  induction objs generalizing s with
  | nil => simp [processObjects]
  | cons obj rest ih =>
    by_cases hp : obj.points.isEmpty
    · simpa [processObjects, hp] using ih s
    · cases hm : listIdxOf obj.objectId (env.retObjectIds obj.objectId) with
      | none => simp [processObjects, hp, hm, ih]
      | some idx => simp [processObjects, hp, hm, ih]

theorem processObjects_results (env : PredictEnv) (t : Int) (w h : Nat)
    (rb : Bool) (s : SessionEntry) (objs : List ObjectPayload) :
    (processObjects env t w h rb s objs).2.2 =
      (objs.filter fun o => !o.points.isEmpty &&
          (listIdxOf o.objectId (env.retObjectIds o.objectId)).isSome).map
        (mkObjectResult env w h rb) := by
  induction objs generalizing s with
  | nil => simp [processObjects]
  | cons obj rest ih =>
    by_cases hp : obj.points.isEmpty
    · simpa [processObjects, hp] using ih s
    · cases hm : listIdxOf obj.objectId (env.retObjectIds obj.objectId) with
      | none => simp [processObjects, hp, hm, ih]
      | some idx => simp [processObjects, hp, hm, ih, mkObjectResult]

theorem processObjects_pointInputs_ne (env : PredictEnv) (t : Int) (w h : Nat)
    (rb : Bool) (s : SessionEntry) (objs : List ObjectPayload) (k : ObjId × Int)
    (hk : ∀ o ∈ objs, o.points = [] ∨ o.objectId ≠ k.1) :
    assocFind (processObjects env t w h rb s objs).1.state.pointInputsPerObj k =
      assocFind s.state.pointInputsPerObj k := by
  induction objs generalizing s with
  | nil => simp [processObjects]
  | cons obj rest ih =>
    have hrest : ∀ o ∈ rest, o.points = [] ∨ o.objectId ≠ k.1 :=
      fun o ho => hk o (by simp [ho])
    by_cases hp : obj.points.isEmpty
    · simpa [processObjects, hp] using ih s hrest
    · have hne : obj.objectId ≠ k.1 := by
        rcases hk obj (by simp) with h1 | h1
        · exact absurd h1 (by simpa [List.isEmpty_iff] using hp)
        · exact h1
      have hkey : (obj.objectId, t) ≠ k := by
        intro hcontra
        exact hne (by rw [← hcontra])
      have hfind :
          assocFind (addNewPointsModel s.state obj.objectId t
            (obj.points.map fun p => (p.x, p.y, p.label))).pointInputsPerObj k =
          assocFind s.state.pointInputsPerObj k := by
        simp only [addNewPointsModel]
        exact assocFind_assocSet_ne _ _ _ _ hkey
      have hih := ih { s with
        state := addNewPointsModel s.state obj.objectId t
          (obj.points.map fun p => (p.x, p.y, p.label)) } hrest
      cases hm : listIdxOf obj.objectId (env.retObjectIds obj.objectId) with
      | none =>
        simp only [processObjects, if_neg hp, hm]
        rw [hih]
        exact hfind
      | some idx =>
        simp only [processObjects, if_neg hp, hm]
        rw [hih]
        exact hfind

theorem processObjects_pointInputs_keys (env : PredictEnv) (t : Int) (w h : Nat)
    (rb : Bool) (s : SessionEntry) (objs : List ObjectPayload) (k : ObjId × Int)
    (hk : k ∈ (processObjects env t w h rb s objs).1.state.pointInputsPerObj.map (·.1)) :
    k ∈ s.state.pointInputsPerObj.map (·.1) ∨ k.1 ∈ objs.map (·.objectId) := by
  induction objs generalizing s with
  | nil =>
    left
    simpa [processObjects] using hk
  | cons obj rest ih =>
    by_cases hp : obj.points.isEmpty
    · rcases ih s (by simpa [processObjects, hp] using hk) with h1 | h1
      · exact .inl h1
      · right
        simp [h1]
    · have hstep : (processObjects env t w h rb s (obj :: rest)).1 =
          (processObjects env t w h rb { s with
            state := addNewPointsModel s.state obj.objectId t
              (obj.points.map fun p => (p.x, p.y, p.label)) } rest).1 := by
        cases hm : listIdxOf obj.objectId (env.retObjectIds obj.objectId) with
        | none => simp only [processObjects, if_neg hp, hm]
        | some idx => simp only [processObjects, if_neg hp, hm]
      rw [hstep] at hk
      rcases ih _ hk with h1 | h1
      · simp only [addNewPointsModel] at h1
        rcases assocSet_keys_mem _ _ _ _ h1 with h2 | h2
        · right
          simp [h2]
        · exact .inl h2
      · right
        simp [h1]

theorem statelessPrepare_changed (s : SessionEntry) (f : Int) (w h : Nat)
    (hch : s.lastFrameIdx.getD (-1) ≠ f) :
    statelessPrepare s f w h =
      ({ s with
         state := { s.state with
           pointInputsPerObj := [], maskInputsPerObj := [], objIds := [],
           outputDictPerObj := [], tempOutputDictPerObj := [],
           framesTrackedPerObj := [], cachedFeatures := [],
           images := some (w, h), numFrames := 1,
           videoHeight := some h, videoWidth := some w },
         lastFrameIdx := some f },
       [Ev.predictor .resetState]) := by
  simp [statelessPrepare, resetStateModel, hch]

theorem statelessPrepare_unchanged (s : SessionEntry) (f : Int) (w h : Nat)
    (hlast : s.lastFrameIdx.getD (-1) = f) (him : s.state.images.isSome) :
    statelessPrepare s f w h = (s, []) := by
  have him' : ¬s.state.images = none := Option.isSome_iff_ne_none.mp him
  simp [statelessPrepare, hlast, him']

theorem statelessPrepare_getD (s : SessionEntry) (f : Int) (w h : Nat) :
    ((statelessPrepare s f w h).1).lastFrameIdx.getD (-1) = f := by
  by_cases hch : s.lastFrameIdx.getD (-1) = f
  · by_cases him : s.state.images = none
    · simp [statelessPrepare, hch, him]
    · rw [statelessPrepare_unchanged s f w h hch (Option.isSome_iff_ne_none.mpr him)]
      exact hch
  · rw [statelessPrepare_changed s f w h hch]
    simp

theorem statelessPrepare_images_isSome (s : SessionEntry) (f : Int) (w h : Nat) :
    ((statelessPrepare s f w h).1).state.images.isSome := by
  by_cases hch : s.lastFrameIdx.getD (-1) = f
  · by_cases him : s.state.images = none
    · simp [statelessPrepare, hch, him]
    · rw [statelessPrepare_unchanged s f w h hch (Option.isSome_iff_ne_none.mpr him)]
      exact Option.isSome_iff_ne_none.mpr him
  · rw [statelessPrepare_changed s f w h hch]
    simp

theorem statelessPrepare_numFrames_le (s : SessionEntry) (f : Int) (w h : Nat)
    (hs : s.state.numFrames ≤ 1) :
    ((statelessPrepare s f w h).1).state.numFrames ≤ 1 := by
  by_cases hch : s.lastFrameIdx.getD (-1) = f
  · by_cases him : s.state.images = none
    · simp [statelessPrepare, hch, him]
    · rw [statelessPrepare_unchanged s f w h hch (Option.isSome_iff_ne_none.mpr him)]
      exact hs
  · rw [statelessPrepare_changed s f w h hch]

theorem predict_valid_eq (env : PredictEnv) (store : SessionStore)
    (payload : PredictPayload) (rb : Bool) (vp rp : String) (f : Int) (w h : Nat)
    (hvp : payload.videoPath = some vp) (hvpne : vp ≠ "")
    (hfi : payload.frameIndex = some f)
    (hres : env.resolvePath vp = .ok rp)
    (hfs : env.frameSize rp f = some (w, h)) :
    Inference.predict env store payload rb = predict_core env store payload rb f w h := by
  have hbeq : (vp == "") = false := by
    simpa using hvpne
  simp [Inference.predict, hvp, hfi, hres, hfs, pyFalsy, hbeq]

theorem predict_core_existing (env : PredictEnv) (store : SessionStore)
    (payload : PredictPayload) (rb : Bool) (f : Int) (w h : Nat)
    (sid : String) (sess : SessionEntry)
    (hsid : resolveSessionId env payload = sid)
    (hlk : lookupSession store sid = some sess) :
    predict_core env store payload rb f w h =
      (let isStateless := sess.state.numFrames ≤ 1
       let prep := if isStateless then statelessPrepare sess f w h else (sess, [])
       let tgt := if isStateless then (0 : Int) else f
       let outv := processObjects env tgt w h rb prep.1 payload.objects
       (.ok { sessionId := sid, frameIndex := f, results := outv.2.2,
              meta := payload.meta },
        insertSession store sid outv.1,
        prep.2 ++ [Ev.lockAcquire] ++ outv.2.1 ++ [Ev.lockRelease])) := by
  subst hsid
  simp [predict_core, hlk, PredictPayload.iter_objects]

theorem predict_core_fresh (env : PredictEnv) (store : SessionStore)
    (payload : PredictPayload) (rb : Bool) (f : Int) (w h : Nat)
    (sid : String)
    (hsid : resolveSessionId env payload = sid)
    (hlk : lookupSession store sid = none) :
    predict_core env store payload rb f w h =
      (let prep := statelessPrepare startSessionEmptyEntry f w h
       let outv := processObjects env 0 w h rb prep.1 payload.objects
       (.ok { sessionId := sid, frameIndex := f, results := outv.2.2,
              meta := payload.meta },
        insertSession (insertSession store sid startSessionEmptyEntry) sid outv.1,
        [Ev.lockAcquire, Ev.lockRelease] ++ prep.2 ++ [Ev.lockAcquire] ++
          outv.2.1 ++ [Ev.lockRelease])) := by
  subst hsid
  have hlk2 : lookupSession (insertSession store (resolveSessionId env payload)
      startSessionEmptyEntry) (resolveSessionId env payload) =
      some startSessionEmptyEntry := by
    simp [lookupSession, insertSession, assocFind_assocSet_self]
  have h01 : startSessionEmptyEntry.state.numFrames ≤ 1 := by
    simp [startSessionEmptyEntry, emptyInferenceState]
  simp [predict_core, hlk, hlk2, if_pos h01, PredictPayload.iter_objects]

theorem listIdxOf_isSome {α : Type} [DecidableEq α] (a : α) (l : List α) :
    (listIdxOf a l).isSome = decide (a ∈ l) := by
  induction l with
  | nil => simp [listIdxOf]
  | cons b rest ih =>
    by_cases h : b = a
    · simp [listIdxOf, h]
    · simp [listIdxOf, h, ih, Ne.symm h]

/-- C6: a predict call whose payload omits `frameIndex` (or omits
`videoPath`, including the empty-string case) is rejected with an HTTP 400
validation error; the event trace is empty — so no lock acquisition and no
Predictor operation (`init_state`, `reset_state`, `add_new_points_or_box`)
happens for that request — and the session store is untouched. -/
theorem C6_missing_fields_rejected (env : PredictEnv) (store : SessionStore)
    (payload : PredictPayload) (rb : Bool)
    (hmiss : pyFalsy payload.videoPath = true ∨ payload.frameIndex = none) :
    (∃ d, (Inference.predict env store payload rb).1 = .error ⟨400, d⟩) ∧
    (Inference.predict env store payload rb).2.2 = [] ∧
    (Inference.predict env store payload rb).2.1 = store := by
  rcases hmiss with hm | hm
  · exact ⟨⟨"videoPath is required", by simp [Inference.predict, hm]⟩,
      by simp [Inference.predict, hm], by simp [Inference.predict, hm]⟩
  · by_cases hvp : pyFalsy payload.videoPath
    · exact ⟨⟨"videoPath is required", by simp [Inference.predict, hvp]⟩,
        by simp [Inference.predict, hvp], by simp [Inference.predict, hvp]⟩
    · exact ⟨⟨"frameIndex is required", by simp [Inference.predict, hvp, hm]⟩,
        by simp [Inference.predict, hvp, hm], by simp [Inference.predict, hvp, hm]⟩

theorem C6_missing_fields_rejected_witness :
    (pyFalsy payloadNoFrame.videoPath = true ∨ payloadNoFrame.frameIndex = none) ∧
    ((∃ d, (Inference.predict envW storeS1 payloadNoFrame false).1 = .error ⟨400, d⟩) ∧
     (Inference.predict envW storeS1 payloadNoFrame false).2.2 = [] ∧
     (Inference.predict envW storeS1 payloadNoFrame false).2.1 = storeS1) :=
  ⟨Or.inr rfl,
   C6_missing_fields_rejected envW storeS1 payloadNoFrame false (Or.inr rfl)⟩

/-- C10: a predict call carrying no usable sessionId (absent or empty)
receives the freshly generated UUID as its session id: the session is
auto-created (via `start_session` under the lock, visible as the leading
acquire/release pair in the trace), the returned FrameResult.sessionId
equals the generated id, and the session is still present in the session
store after the call. -/
theorem C10_fresh_session_autocreate (env : PredictEnv) (store : SessionStore)
    (payload : PredictPayload) (rb : Bool) (vp rp : String) (f : Int) (w h : Nat)
    (hsid : payload.sessionId = none ∨ payload.sessionId = some "")
    (hvp : payload.videoPath = some vp) (hvpne : vp ≠ "")
    (hfi : payload.frameIndex = some f)
    (hres : env.resolvePath vp = .ok rp)
    (hfs : env.frameSize rp f = some (w, h))
    (hfresh : lookupSession store env.freshId = none) :
    (∃ res, (Inference.predict env store payload rb).1 = .ok res ∧
       res.sessionId = env.freshId) ∧
    (lookupSession (Inference.predict env store payload rb).2.1 env.freshId).isSome = true ∧
    (Inference.predict env store payload rb).2.2.take 2 = [Ev.lockAcquire, Ev.lockRelease] := by
  have hrid : resolveSessionId env payload = env.freshId := by
    rcases hsid with hs | hs <;> simp [resolveSessionId, hs]
  rw [predict_valid_eq env store payload rb vp rp f w h hvp hvpne hfi hres hfs,
    predict_core_fresh env store payload rb f w h env.freshId hrid hfresh]
  refine ⟨⟨_, rfl, rfl⟩, ?_, ?_⟩
  · simp [lookupSession, insertSession, assocFind_assocSet_self]
  · simp

theorem C10_fresh_session_autocreate_witness :
    (payloadNoSession.sessionId = none ∨ payloadNoSession.sessionId = some "") ∧
    payloadNoSession.videoPath = some "v.mp4" ∧ ("v.mp4" : String) ≠ "" ∧
    payloadNoSession.frameIndex = some 5 ∧
    envW.resolvePath "v.mp4" = .ok "v.mp4" ∧
    envW.frameSize "v.mp4" 5 = some (100, 50) ∧
    lookupSession ([] : SessionStore) envW.freshId = none ∧
    ((∃ res, (Inference.predict envW [] payloadNoSession false).1 = .ok res ∧
        res.sessionId = envW.freshId) ∧
     (lookupSession (Inference.predict envW [] payloadNoSession false).2.1
        envW.freshId).isSome = true ∧
     (Inference.predict envW [] payloadNoSession false).2.2.take 2 =
       [Ev.lockAcquire, Ev.lockRelease]) :=
  ⟨Or.inl rfl, rfl, by decide, rfl, rfl, rfl, rfl,
   C10_fresh_session_autocreate envW [] payloadNoSession false "v.mp4" "v.mp4" 5 100 50
     (Or.inl rfl) rfl (by decide) rfl rfl rfl rfl⟩

/-- C9: for every successful predict call, the Object Results appear in the
same relative order as their objects in the request: the result list is
exactly the request's object sequence filtered to objects with at least one
point whose objectId occurs in the Predictor's returned object_ids, each
mapped to its ObjectResult, order preserved. -/
theorem C9_results_order_filter (env : PredictEnv) (store : SessionStore)
    (payload : PredictPayload) (rb : Bool) (vp rp : String) (f : Int) (w h : Nat)
    (hvp : payload.videoPath = some vp) (hvpne : vp ≠ "")
    (hfi : payload.frameIndex = some f)
    (hres : env.resolvePath vp = .ok rp)
    (hfs : env.frameSize rp f = some (w, h)) :
    ∀ res, (Inference.predict env store payload rb).1 = .ok res →
      res.results =
        (payload.objects.filter fun o => !o.points.isEmpty &&
            decide (o.objectId ∈ env.retObjectIds o.objectId)).map
          (mkObjectResult env w h rb) := by
  intro res hok
  have hfilter : ∀ s : SessionEntry, ∀ tgt : Int,
      (processObjects env tgt w h rb s payload.objects).2.2 =
        (payload.objects.filter fun o => !o.points.isEmpty &&
            decide (o.objectId ∈ env.retObjectIds o.objectId)).map
          (mkObjectResult env w h rb) := by
    intro s tgt
    rw [processObjects_results]
    congr 1
    apply List.filter_congr
    intro o _
    rw [listIdxOf_isSome]
    congr 1
    rw [decide_eq_decide]
  rw [predict_valid_eq env store payload rb vp rp f w h hvp hvpne hfi hres hfs] at hok
  cases hlk : lookupSession store (resolveSessionId env payload) with
  | some sess =>
    rw [predict_core_existing env store payload rb f w h _ sess rfl hlk] at hok
    dsimp only at hok
    injection hok with hinj
    rw [← hinj]
    exact hfilter _ _
  | none =>
    rw [predict_core_fresh env store payload rb f w h _ rfl hlk] at hok
    dsimp only at hok
    injection hok with hinj
    rw [← hinj]
    exact hfilter _ _

theorem statelessPrepare_events (s : SessionEntry) (f : Int) (w h : Nat) :
    (statelessPrepare s f w h).2 = [] ∨
    (statelessPrepare s f w h).2 = [Ev.predictor .resetState] := by
  by_cases hch : s.lastFrameIdx.getD (-1) = f
  · by_cases him : s.state.images = none
    · left
      simp [statelessPrepare, hch, him]
    · left
      rw [statelessPrepare_unchanged s f w h hch (Option.isSome_iff_ne_none.mpr him)]
  · right
    rw [statelessPrepare_changed s f w h hch]

theorem processObjects_event_inv (env : PredictEnv) (t : Int) (w h : Nat)
    (rb : Bool) (s : SessionEntry) (objs : List ObjectPayload)
    (oid : ObjId) (fi : Int) (coords : List (ℚ × ℚ)) (labels : List Int)
    (co nc : Bool)
    (hmem : Ev.predictor (.addNewPointsOrBox oid fi coords labels co nc) ∈
      (processObjects env t w h rb s objs).2.1) :
    nc = false ∧ co = true ∧
    ∃ obj, obj ∈ objs ∧ obj.objectId = oid ∧
      coords = obj.points.map (fun p => (p.x, p.y)) ∧
      labels = obj.points.map (fun p => p.label) := by
  rw [processObjects_events] at hmem
  simp only [List.mem_map, List.mem_filter] at hmem
  obtain ⟨o, ⟨ho, _⟩, heq⟩ := hmem
  simp only [Ev.predictor.injEq, PredictorEv.addNewPointsOrBox.injEq] at heq
  obtain ⟨hoid, _, hc, hl, hco, hnc⟩ := heq
  exact ⟨hnc.symm, hco.symm, o, ho, hoid, hc.symm, hl.symm⟩

theorem resetState_not_mem_processObjects (env : PredictEnv) (t : Int) (w h : Nat)
    (rb : Bool) (s : SessionEntry) (objs : List ObjectPayload) :
    Ev.predictor .resetState ∉ (processObjects env t w h rb s objs).2.1 := by
  rw [processObjects_events]
  simp

/-- C1 counterexample: at a concrete predict call (frame size 100×50, one
object whose single point is (1, 1)), the coordinate list handed to
`add_new_points_or_box` is the raw normalized list, and it is not the pixel
conversion `PointPayload.to_pixel` (which would give (100, 50)); the claim
that point prompts are converted to pixel coordinates (x·width, y·height)
before being passed to the Predictor is therefore false on the code. -/
theorem C1_pixel_conversion_counterexample :
    ¬ (∀ (oid : ObjId) (fi : Int) (coords : List (ℚ × ℚ)) (labels : List Int)
        (co nc : Bool),
        Ev.predictor (.addNewPointsOrBox oid fi coords labels co nc) ∈
          (Inference.predict envW storeS1 payloadW false).2.2 →
        ∃ obj, obj ∈ payloadW.objects ∧ obj.objectId = oid ∧
          coords = obj.points.map
            (fun p => ((p.to_pixel (100, 50)).1, (p.to_pixel (100, 50)).2.1))) := by
  intro hclaim
  have hmem : Ev.predictor (.addNewPointsOrBox (some 1) 0
      [((1 : ℚ), (1 : ℚ))] [1] true false) ∈
      (Inference.predict envW storeS1 payloadW false).2.2 := by decide
  obtain ⟨obj, hobj, _, hcoords⟩ :=
    hclaim (some 1) 0 [((1 : ℚ), (1 : ℚ))] [1] true false hmem
  have hobjW : obj = objW := by
    simpa [payloadW] using hobj
  subst hobjW
  simp only [objW, pointW, PointPayload.to_pixel, List.map_cons, List.map_nil,
    List.cons.injEq, Prod.mk.injEq] at hcoords
  have h100 : (1 : ℚ) = 1 * (100 : ℚ) := hcoords.1.1
  norm_num at h100

/-- C1 (amended): each object's point prompts are handed to the Predictor's
add_new_points_or_box operation as the raw normalized (x, y) coordinates
unchanged — no conversion to pixel coordinates happens — together with the
point labels, clear_old_points=True and normalize_coords=False. -/
theorem C1_points_forwarded_normalized (env : PredictEnv) (store : SessionStore)
    (payload : PredictPayload) (rb : Bool) (vp rp : String) (f : Int) (w h : Nat)
    (hvp : payload.videoPath = some vp) (hvpne : vp ≠ "")
    (hfi : payload.frameIndex = some f)
    (hres : env.resolvePath vp = .ok rp)
    (hfs : env.frameSize rp f = some (w, h)) :
    ∀ (oid : ObjId) (fi : Int) (coords : List (ℚ × ℚ)) (labels : List Int)
      (co nc : Bool),
      Ev.predictor (.addNewPointsOrBox oid fi coords labels co nc) ∈
        (Inference.predict env store payload rb).2.2 →
      nc = false ∧ co = true ∧
      ∃ obj, obj ∈ payload.objects ∧ obj.objectId = oid ∧
        coords = obj.points.map (fun p => (p.x, p.y)) ∧
        labels = obj.points.map (fun p => p.label) := by
  intro oid fi coords labels co nc hmem
  rw [predict_valid_eq env store payload rb vp rp f w h hvp hvpne hfi hres hfs] at hmem
  cases hlk : lookupSession store (resolveSessionId env payload) with
  | some sess =>
    rw [predict_core_existing env store payload rb f w h _ sess rfl hlk] at hmem
    dsimp only at hmem
    rw [List.mem_append, List.mem_append, List.mem_append] at hmem
    rcases hmem with ((hmem | hmem) | hmem) | hmem
    · by_cases hsl : sess.state.numFrames ≤ 1
      · rw [if_pos hsl] at hmem
        rcases statelessPrepare_events sess f w h with he | he <;>
          rw [he] at hmem <;> simp at hmem
      · rw [if_neg hsl] at hmem
        simp at hmem
    · simp at hmem
    · exact processObjects_event_inv _ _ _ _ _ _ _ _ _ _ _ _ _ hmem
    · simp at hmem
  | none =>
    rw [predict_core_fresh env store payload rb f w h _ rfl hlk] at hmem
    dsimp only at hmem
    rw [List.mem_append, List.mem_append, List.mem_append, List.mem_append] at hmem
    rcases hmem with (((hmem | hmem) | hmem) | hmem) | hmem
    · simp at hmem
    · rcases statelessPrepare_events startSessionEmptyEntry f w h with he | he <;>
        rw [he] at hmem <;> simp at hmem
    · simp at hmem
    · exact processObjects_event_inv _ _ _ _ _ _ _ _ _ _ _ _ _ hmem
    · simp at hmem

theorem C1_points_forwarded_normalized_witness :
    payloadW.videoPath = some "v.mp4" ∧ ("v.mp4" : String) ≠ "" ∧
    payloadW.frameIndex = some 5 ∧
    envW.resolvePath "v.mp4" = .ok "v.mp4" ∧
    envW.frameSize "v.mp4" 5 = some (100, 50) ∧
    (Ev.predictor (.addNewPointsOrBox (some 1) 0
        [((1 : ℚ), (1 : ℚ))] [1] true false) ∈
      (Inference.predict envW storeS1 payloadW false).2.2) ∧
    (false = false ∧ true = true ∧
     ∃ obj, obj ∈ payloadW.objects ∧ obj.objectId = some 1 ∧
       [((1 : ℚ), (1 : ℚ))] = obj.points.map (fun p => (p.x, p.y)) ∧
       [(1 : Int)] = obj.points.map (fun p => p.label)) := by
  have hmem : Ev.predictor (.addNewPointsOrBox (some 1) 0
      [((1 : ℚ), (1 : ℚ))] [1] true false) ∈
      (Inference.predict envW storeS1 payloadW false).2.2 := by decide
  exact ⟨rfl, by decide, rfl, rfl, rfl, hmem,
    C1_points_forwarded_normalized envW storeS1 payloadW false "v.mp4" "v.mp4" 5 100 50
      rfl (by decide) rfl rfl rfl (some 1) 0 [((1 : ℚ), (1 : ℚ))] [1] true false hmem⟩

/-- C2: in stateless mode (session numFrames ≤ 1), a predict call whose
frameIndex differs from the session's last-seen frame index resets the
Predictor state (a reset_state invocation appears in the trace) and clears
the per-object point/mask history: every Object Result in the response comes
from an object of this very request (so an object masked in an earlier call
but not resubmitted produces no Object Result), and every point-history key
left in the session afterwards belongs to an object of this request. -/
theorem C2_stateless_frame_change_resets (env : PredictEnv) (store : SessionStore)
    (payload : PredictPayload) (rb : Bool) (sid vp rp : String) (f : Int)
    (w h : Nat) (sess : SessionEntry)
    (hsid : payload.sessionId = some sid) (hsidne : sid ≠ "")
    (hvp : payload.videoPath = some vp) (hvpne : vp ≠ "")
    (hfi : payload.frameIndex = some f)
    (hres : env.resolvePath vp = .ok rp)
    (hfs : env.frameSize rp f = some (w, h))
    (hlk : lookupSession store sid = some sess)
    (hsl : sess.state.numFrames ≤ 1)
    (hch : sess.lastFrameIdx.getD (-1) ≠ f) :
    (Ev.predictor .resetState ∈ (Inference.predict env store payload rb).2.2) ∧
    (∀ res, (Inference.predict env store payload rb).1 = .ok res →
       ∀ r ∈ res.results, ∃ obj, obj ∈ payload.objects ∧
         obj.objectId = r.objectId ∧ obj.points ≠ []) ∧
    (∀ sess2, lookupSession (Inference.predict env store payload rb).2.1 sid = some sess2 →
       ∀ k ∈ sess2.state.pointInputsPerObj.map (·.1),
         ∃ obj, obj ∈ payload.objects ∧ obj.objectId = k.1) := by
  have hbeq : (sid == "") = false := by simpa using hsidne
  have hrid : resolveSessionId env payload = sid := by
    simp [resolveSessionId, hsid, hbeq]
  have heq : Inference.predict env store payload rb =
      (let prep := statelessPrepare sess f w h
       let outv := processObjects env 0 w h rb prep.1 payload.objects
       (.ok { sessionId := sid, frameIndex := f, results := outv.2.2,
              meta := payload.meta },
        insertSession store sid outv.1,
        prep.2 ++ [Ev.lockAcquire] ++ outv.2.1 ++ [Ev.lockRelease])) := by
    rw [predict_valid_eq env store payload rb vp rp f w h hvp hvpne hfi hres hfs,
      predict_core_existing env store payload rb f w h sid sess hrid hlk]
    simp only [if_pos hsl]
  have hprep := statelessPrepare_changed sess f w h hch
  have hprep2 : (statelessPrepare sess f w h).2 = [Ev.predictor .resetState] := by
    rw [hprep]
  have hprepPI : (statelessPrepare sess f w h).1.state.pointInputsPerObj = [] := by
    rw [hprep]
  refine ⟨?_, ?_, ?_⟩
  · rw [heq]
    dsimp only
    rw [hprep2]
    simp
  · intro res hok r hr
    rw [heq] at hok
    dsimp only at hok
    injection hok with hinj
    rw [← hinj] at hr
    dsimp only at hr
    rw [processObjects_results] at hr
    simp only [List.mem_map, List.mem_filter, Bool.and_eq_true, Bool.not_eq_true',
      List.isEmpty_eq_false] at hr
    obtain ⟨o, ⟨ho, hne, _⟩, hro⟩ := hr
    exact ⟨o, ho, by rw [← hro]; rfl, hne⟩
  · intro sess2 hlk2 k hk
    rw [heq] at hlk2
    dsimp only at hlk2
    simp only [lookupSession, insertSession, assocFind_assocSet_self] at hlk2
    injection hlk2 with h2
    rw [← h2] at hk
    rcases processObjects_pointInputs_keys env 0 w h rb _ payload.objects k hk with h1 | h1
    · rw [hprepPI] at h1
      simp at h1
    · obtain ⟨obj, hobj, hid⟩ := List.mem_map.mp h1
      exact ⟨obj, hobj, hid⟩

theorem C2_stateless_frame_change_resets_witness :
    (payloadW.sessionId = some "s1") ∧ ("s1" : String) ≠ "" ∧
    payloadW.videoPath = some "v.mp4" ∧ ("v.mp4" : String) ≠ "" ∧
    payloadW.frameIndex = some 5 ∧
    envW.resolvePath "v.mp4" = .ok "v.mp4" ∧
    envW.frameSize "v.mp4" 5 = some (100, 50) ∧
    lookupSession storeS1 "s1" = some startSessionEmptyEntry ∧
    startSessionEmptyEntry.state.numFrames ≤ 1 ∧
    startSessionEmptyEntry.lastFrameIdx.getD (-1) ≠ 5 ∧
    ((Ev.predictor .resetState ∈ (Inference.predict envW storeS1 payloadW false).2.2) ∧
     (∀ res, (Inference.predict envW storeS1 payloadW false).1 = .ok res →
        ∀ r ∈ res.results, ∃ obj, obj ∈ payloadW.objects ∧
          obj.objectId = r.objectId ∧ obj.points ≠ []) ∧
     (∀ sess2, lookupSession (Inference.predict envW storeS1 payloadW false).2.1 "s1" =
          some sess2 →
        ∀ k ∈ sess2.state.pointInputsPerObj.map (·.1),
          ∃ obj, obj ∈ payloadW.objects ∧ obj.objectId = k.1)) :=
  ⟨rfl, by decide, rfl, by decide, rfl, rfl, rfl, rfl, by decide, by decide,
   C2_stateless_frame_change_resets envW storeS1 payloadW false "s1" "v.mp4" "v.mp4"
     5 100 50 startSessionEmptyEntry rfl (by decide) rfl (by decide) rfl rfl rfl rfl
     (by decide) (by decide)⟩

/-- C8 (code evidence): at a concrete stateless predict call with a changed
frame index, the event trace is [resetState, lockAcquire,
addNewPointsOrBox, lockRelease]: the reset_state Predictor invocation
executes before the orchestrator's inference lock is acquired, so it is not
true that every Predictor invocation made while serving a predict request
runs while holding the lock — the per-object add_new_points_or_box call does
(lock held at index 2), the frame-change reset_state call does not (lock not
held at index 0). -/
theorem C8_reset_state_outside_lock :
    (Inference.predict envW storeS1 payloadW false).2.2 =
      [Ev.predictor .resetState, Ev.lockAcquire,
       Ev.predictor (.addNewPointsOrBox (some 1) 0 [((1 : ℚ), (1 : ℚ))] [1] true false),
       Ev.lockRelease] ∧
    predictorOpsUnderLock (Inference.predict envW storeS1 payloadW false).2.2 = false ∧
    lockHeldBefore (Inference.predict envW storeS1 payloadW false).2.2 0 = false ∧
    lockHeldBefore (Inference.predict envW storeS1 payloadW false).2.2 2 = true := by
  refine ⟨by decide, by decide, by decide, by decide⟩

/-- C3: two consecutive predict calls on a stateless session with the same
frameIndex never trigger a state reset on the second call: no reset_state
invocation appears in the second call's trace, and every per-object
point-history entry left by the first call whose object id is not resubmitted
in the second call is unchanged by the second call. -/
theorem C3_same_frame_no_rereset (env : PredictEnv) (store : SessionStore)
    (p1 p2 : PredictPayload) (rb1 rb2 : Bool) (sid vp1 vp2 rp1 rp2 : String)
    (f : Int) (w1 h1 w2 h2 : Nat) (sess : SessionEntry)
    (h1sid : p1.sessionId = some sid) (hsidne : sid ≠ "")
    (h2sid : p2.sessionId = some sid)
    (h1vp : p1.videoPath = some vp1) (h1vpne : vp1 ≠ "")
    (h2vp : p2.videoPath = some vp2) (h2vpne : vp2 ≠ "")
    (h1fi : p1.frameIndex = some f) (h2fi : p2.frameIndex = some f)
    (h1res : env.resolvePath vp1 = .ok rp1)
    (h1fs : env.frameSize rp1 f = some (w1, h1))
    (h2res : env.resolvePath vp2 = .ok rp2)
    (h2fs : env.frameSize rp2 f = some (w2, h2))
    (hlk : lookupSession store sid = some sess)
    (hsl : sess.state.numFrames ≤ 1) :
    (Ev.predictor .resetState ∉
       (Inference.predict env (Inference.predict env store p1 rb1).2.1 p2 rb2).2.2) ∧
    (∀ k : ObjId × Int, (∀ o ∈ p2.objects, o.points = [] ∨ o.objectId ≠ k.1) →
       ∀ sess1 sess2,
         lookupSession (Inference.predict env store p1 rb1).2.1 sid = some sess1 →
         lookupSession
           (Inference.predict env (Inference.predict env store p1 rb1).2.1 p2 rb2).2.1 sid =
           some sess2 →
         assocFind sess2.state.pointInputsPerObj k =
           assocFind sess1.state.pointInputsPerObj k) := by
  have hbeq : (sid == "") = false := by simpa using hsidne
  have hrid1 : resolveSessionId env p1 = sid := by
    simp [resolveSessionId, h1sid, hbeq]
  have hrid2 : resolveSessionId env p2 = sid := by
    simp [resolveSessionId, h2sid, hbeq]
  have heq1 : Inference.predict env store p1 rb1 =
      (let prep := statelessPrepare sess f w1 h1
       let outv := processObjects env 0 w1 h1 rb1 prep.1 p1.objects
       (.ok { sessionId := sid, frameIndex := f, results := outv.2.2,
              meta := p1.meta },
        insertSession store sid outv.1,
        prep.2 ++ [Ev.lockAcquire] ++ outv.2.1 ++ [Ev.lockRelease])) := by
    rw [predict_valid_eq env store p1 rb1 vp1 rp1 f w1 h1 h1vp h1vpne h1fi h1res h1fs,
      predict_core_existing env store p1 rb1 f w1 h1 sid sess hrid1 hlk]
    simp only [if_pos hsl]
  have hstore1 : (Inference.predict env store p1 rb1).2.1 =
      insertSession store sid
        (processObjects env 0 w1 h1 rb1 (statelessPrepare sess f w1 h1).1 p1.objects).1 := by
    rw [heq1]
  have hpf := processObjects_session_fields env 0 w1 h1 rb1
    (statelessPrepare sess f w1 h1).1 p1.objects
  have hlast : (processObjects env 0 w1 h1 rb1 (statelessPrepare sess f w1 h1).1
      p1.objects).1.lastFrameIdx.getD (-1) = f := by
    rw [hpf.1]
    exact statelessPrepare_getD sess f w1 h1
  have hnum : (processObjects env 0 w1 h1 rb1 (statelessPrepare sess f w1 h1).1
      p1.objects).1.state.numFrames ≤ 1 := by
    rw [hpf.2.1]
    exact statelessPrepare_numFrames_le sess f w1 h1 hsl
  have himg : (processObjects env 0 w1 h1 rb1 (statelessPrepare sess f w1 h1).1
      p1.objects).1.state.images.isSome := by
    rw [hpf.2.2]
    exact statelessPrepare_images_isSome sess f w1 h1
  have hlk1 : lookupSession (insertSession store sid
      (processObjects env 0 w1 h1 rb1 (statelessPrepare sess f w1 h1).1 p1.objects).1) sid =
      some (processObjects env 0 w1 h1 rb1 (statelessPrepare sess f w1 h1).1 p1.objects).1 := by
    simp [lookupSession, insertSession, assocFind_assocSet_self]
  have hprep2 : statelessPrepare (processObjects env 0 w1 h1 rb1
      (statelessPrepare sess f w1 h1).1 p1.objects).1 f w2 h2 =
      ((processObjects env 0 w1 h1 rb1 (statelessPrepare sess f w1 h1).1 p1.objects).1, []) :=
    statelessPrepare_unchanged _ f w2 h2 hlast himg
  have heq2 : Inference.predict env (Inference.predict env store p1 rb1).2.1 p2 rb2 =
      (let outv := processObjects env 0 w2 h2 rb2
         (processObjects env 0 w1 h1 rb1 (statelessPrepare sess f w1 h1).1 p1.objects).1
         p2.objects
       (.ok { sessionId := sid, frameIndex := f, results := outv.2.2,
              meta := p2.meta },
        insertSession (insertSession store sid
          (processObjects env 0 w1 h1 rb1 (statelessPrepare sess f w1 h1).1 p1.objects).1)
          sid outv.1,
        ([] : List Ev) ++ [Ev.lockAcquire] ++ outv.2.1 ++ [Ev.lockRelease])) := by
    rw [hstore1,
      predict_valid_eq env _ p2 rb2 vp2 rp2 f w2 h2 h2vp h2vpne h2fi h2res h2fs,
      predict_core_existing env _ p2 rb2 f w2 h2 sid _ hrid2 hlk1]
    simp only [if_pos hnum, hprep2]
  constructor
  · rw [heq2]
    dsimp only
    have hnm := resetState_not_mem_processObjects env 0 w2 h2 rb2
      (processObjects env 0 w1 h1 rb1 (statelessPrepare sess f w1 h1).1 p1.objects).1
      p2.objects
    simp [hnm]
  · intro k hkcond sess1 sess2 hs1 hs2
    rw [hstore1] at hs1
    rw [hlk1] at hs1
    injection hs1 with e1
    rw [heq2] at hs2
    dsimp only at hs2
    simp only [lookupSession, insertSession, assocFind_assocSet_self] at hs2
    injection hs2 with e2
    rw [← e1, ← e2]
    exact processObjects_pointInputs_ne env 0 w2 h2 rb2 _ p2.objects k hkcond

theorem C3_same_frame_no_rereset_witness :
    (payloadW.sessionId = some "s1") ∧ ("s1" : String) ≠ "" ∧
    (payloadW2.sessionId = some "s1") ∧
    payloadW.videoPath = some "v.mp4" ∧ ("v.mp4" : String) ≠ "" ∧
    payloadW2.videoPath = some "v.mp4" ∧
    payloadW.frameIndex = some 5 ∧ payloadW2.frameIndex = some 5 ∧
    envW.resolvePath "v.mp4" = .ok "v.mp4" ∧
    envW.frameSize "v.mp4" 5 = some (100, 50) ∧
    lookupSession storeS1 "s1" = some startSessionEmptyEntry ∧
    startSessionEmptyEntry.state.numFrames ≤ 1 ∧
    ((Ev.predictor .resetState ∉
        (Inference.predict envW (Inference.predict envW storeS1 payloadW false).2.1
          payloadW2 false).2.2) ∧
     (∀ k : ObjId × Int, (∀ o ∈ payloadW2.objects, o.points = [] ∨ o.objectId ≠ k.1) →
        ∀ sess1 sess2,
          lookupSession (Inference.predict envW storeS1 payloadW false).2.1 "s1" = some sess1 →
          lookupSession
            (Inference.predict envW (Inference.predict envW storeS1 payloadW false).2.1
              payloadW2 false).2.1 "s1" = some sess2 →
          assocFind sess2.state.pointInputsPerObj k =
            assocFind sess1.state.pointInputsPerObj k)) :=
  ⟨rfl, by decide, rfl, rfl, by decide, rfl, rfl, rfl, rfl, rfl, rfl, by decide,
   C3_same_frame_no_rereset envW storeS1 payloadW payloadW2 false false "s1"
     "v.mp4" "v.mp4" "v.mp4" "v.mp4" 5 100 50 100 50 startSessionEmptyEntry
     rfl (by decide) rfl rfl (by decide) rfl (by decide) rfl rfl rfl rfl rfl rfl rfl
     (by decide)⟩

theorem C9_results_order_filter_witness :
    payloadW.videoPath = some "v.mp4" ∧ ("v.mp4" : String) ≠ "" ∧
    payloadW.frameIndex = some 5 ∧
    envW.resolvePath "v.mp4" = .ok "v.mp4" ∧
    envW.frameSize "v.mp4" 5 = some (100, 50) ∧
    (Inference.predict envW storeS1 payloadW false).1 =
      .ok { sessionId := "s1", frameIndex := 5,
            results := [mkObjectResult envW 100 50 false objW], meta := none } ∧
    ([mkObjectResult envW 100 50 false objW] =
      (payloadW.objects.filter fun o => !o.points.isEmpty &&
          decide (o.objectId ∈ envW.retObjectIds o.objectId)).map
        (mkObjectResult envW 100 50 false)) := by
  have hok : (Inference.predict envW storeS1 payloadW false).1 =
      .ok { sessionId := "s1", frameIndex := 5,
            results := [mkObjectResult envW 100 50 false objW], meta := none } := by
    rfl
  refine ⟨rfl, by decide, rfl, rfl, rfl, hok, ?_⟩
  have hthm := C9_results_order_filter envW storeS1 payloadW false "v.mp4" "v.mp4"
    5 100 50 rfl (by decide) rfl rfl rfl _ hok
  simpa using hthm
